import Mathlib

/-!
Formal model of the FTP client-server project (code/server.c and the
documented server variant).  The server keeps one `FTPSession` per control
connection; command handlers are translated here as pure functions over the
session state, with the operating-system surface (filesystem existence
checks, socket calls, fork, worker exit status) supplied as explicit oracle
parameters.  Side effects on the filesystem and on sockets are reified as
operation traces so that theorems can talk about which paths and ports the
code touches.
-/

namespace FTP

/-- Mirror of the C `FTPSession` struct (server.c lines 33-42): control fd,
authenticated user name, `authenticated` flag, current and root directories,
and the client data endpoint declared by PORT (`data_port = -1` means no
pending endpoint, exactly as in the C code). -/
structure FTPSession where
  control_fd : Int
  username : String
  authenticated : Bool
  current_dir : String
  root_dir : String
  data_ip : String
  data_port : Int
deriving DecidableEq, Repr

/-- The credential store: the `users` array loaded from users.csv, as a list
of (username, password) pairs. -/
abbrev UserStore := List (String × String)

/-- `handle_user_command`'s existence scan over the `users` array. -/
def user_exists (users : UserStore) (username : String) : Bool :=
  users.any (fun u => u.1 == username)

/-- `authenticate_user` (server.c lines 279-287): linear scan comparing both
username and password by exact equality. -/
def authenticate_user (users : UserStore) (username password : String) : Bool :=
  users.any (fun u => u.1 == username && u.2 == password)

/-- `handle_user_command` (server.c lines 341-364): if the username exists in
the store, store it in the session and reply 331; otherwise reply 530 and
leave the session unchanged.  Nothing but the `username` field is written. -/
def handle_user_command (users : UserStore) (s : FTPSession) (username : String) :
    FTPSession × String :=
  if user_exists users username then
    ({ s with username := username }, "331 Username OK, need password.")
  else
    (s, "530 Not logged in.")

/-- `handle_pass_command` (server.c lines 366-389): requires a previously
stored username (`username[0] != '\0'`); on successful authentication sets
the flag, makes the user directory `root_dir/username` (mkdir side effect)
and moves `current_dir` there; on mismatch replies 530 leaving the session
as it was; with no stored username replies 503. -/
def handle_pass_command (users : UserStore) (s : FTPSession) (password : String) :
    FTPSession × String :=
  if s.username ≠ "" then
    if authenticate_user users s.username password then
      ({ s with authenticated := true,
                current_dir := s.root_dir ++ "/" ++ s.username },
       "230 User logged in, proceed.")
    else
      (s, "530 Not logged in.")
  else
    (s, "503 Bad sequence of commands.")

/-! ## sscanf-style integer parsing, for the PORT command -/

/-- The whitespace class of C `isspace`, used both by `%d`-style skipping and
by `%s` token splitting. -/
def isSpace (c : Char) : Bool :=
  c == ' ' || c == '\t' || c == '\n' || c == '\r' || c == '\x0b' || c == '\x0c'

def isDigit (c : Char) : Bool :=
  '0' ≤ c && c ≤ '9'

def digitVal (c : Char) : Nat := c.toNat - 48

/-- Consume a maximal run of decimal digits, accumulating their value. -/
def takeDigits : List Char → Nat → Nat × List Char
  | [], acc => (acc, [])
  | c :: cs, acc =>
    if isDigit c then takeDigits cs (acc * 10 + digitVal c) else (acc, c :: cs)

/-- An unsigned decimal literal: requires at least one digit. -/
def scanUInt (cs : List Char) : Option (Nat × List Char) :=
  match cs with
  | [] => none
  | c :: _ => if isDigit c then some (takeDigits cs 0) else none

/-- One `%d` conversion of `sscanf`: skip whitespace, optional sign, then at
least one digit.  (The C code reads into `int`; inputs of interest are far
from overflow, so the model uses unbounded integers.) -/
def scanInt (cs : List Char) : Option (Int × List Char) :=
  let cs1 := cs.dropWhile isSpace
  match cs1 with
  | '-' :: rest => (scanUInt rest).map (fun p => (-(p.1 : Int), p.2))
  | '+' :: rest => (scanUInt rest).map (fun p => ((p.1 : Int), p.2))
  | _ => (scanUInt cs1).map (fun p => ((p.1 : Int), p.2))

/-- A literal `,` in an sscanf format: must match exactly, no whitespace
skipping. -/
def expectComma (cs : List Char) : Option (List Char) :=
  match cs with
  | ',' :: rest => some rest
  | _ => none

/-- The six integers of a PORT argument. -/
structure PortArgs where
  h1 : Int
  h2 : Int
  h3 : Int
  h4 : Int
  p1 : Int
  p2 : Int
deriving DecidableEq, Repr

/-- The `sscanf(port_args, "%d,%d,%d,%d,%d,%d", ...)` call of
`handle_port_command` (server.c line 414): succeeds exactly when all six
conversions match.  There is no range check on the parsed values. -/
def parsePortArgs (s : String) : Option PortArgs := do
  let (h1, r) ← scanInt s.data
  let r ← expectComma r
  let (h2, r) ← scanInt r
  let r ← expectComma r
  let (h3, r) ← scanInt r
  let r ← expectComma r
  let (h4, r) ← scanInt r
  let r ← expectComma r
  let (p1, r) ← scanInt r
  let r ← expectComma r
  let (p2, _) ← scanInt r
  some ⟨h1, h2, h3, h4, p1, p2⟩

/-- The `sprintf(data_ip, "%d.%d.%d.%d", h1, h2, h3, h4)` formatting. -/
def ipStr (h1 h2 h3 h4 : Int) : String :=
  toString h1 ++ "." ++ toString h2 ++ "." ++ toString h3 ++ "." ++ toString h4

/-- `handle_port_command` (server.c lines 402-424): on a six-integer parse,
store the dotted address and `p1*256+p2` in the session and reply 200; on a
parse failure reply 501 with the session untouched. -/
def handle_port_command (s : FTPSession) (args : String) : FTPSession × String :=
  match parsePortArgs args with
  | none => (s, "501 Syntax error in parameters.")
  | some a =>
    ({ s with data_ip := ipStr a.h1 a.h2 a.h3 a.h4,
              data_port := a.p1 * 256 + a.p2 },
     "200 PORT command successful.")

/-! ## Control-line tokenization (`sscanf(command, "%s %s", cmd, arg)`) -/

/-- One `%s` conversion: skip whitespace, then a maximal nonempty run of
non-whitespace characters; fails when only whitespace remains.  Returns the
token and the unconsumed remainder. -/
def scanToken (cs : List Char) : Option (List Char × List Char) :=
  let rest := cs.dropWhile isSpace
  let tok := rest.takeWhile (fun c => !(isSpace c))
  if tok = [] then none else some (tok, rest.dropWhile (fun c => !(isSpace c)))

/-- The command parse of `handle_command` (server.c lines 289-297):
`sscanf(command, "%s %s", cmd, arg)`.  The verb is the first
whitespace-delimited token; the argument is only the second token (text
after it is never read).  `none` models a line with no token at all
(sscanf count < 1); a missing second token leaves `arg` unset. -/
def sscanf_cmd_arg (cs : List Char) : Option (List Char × Option (List Char)) :=
  match scanToken cs with
  | none => none
  | some (t1, r1) =>
    match scanToken r1 with
    | none => some (t1, none)
    | some (t2, _) => some (t1, some t2)

/-- Modelled from the spec: §4.4 says the remainder of the line after the
verb, left-trimmed, is the argument string and may contain spaces.  This
definition follows the spec's words, for comparison with `sscanf_cmd_arg`
which is translated from the code. -/
def spec_parse_line (cs : List Char) : Option (List Char × List Char) :=
  match scanToken cs with
  | none => none
  | some (t1, r1) => some (t1, r1.dropWhile isSpace)

/-! ## Command dispatch (`handle_command`, server.c lines 289-339) -/

/-- Where `handle_command` routes a control line.  `syntaxError` is the
sscanf-failure reply sent before the session lookup; `internalError` is the
reply for a control fd that has no session slot; `notLoggedIn` is the
authentication gate applied to every verb after USER/PASS/QUIT. -/
inductive Route where
  | syntaxError
  | internalError
  | user
  | pass
  | quit
  | notLoggedIn
  | port
  | list
  | cwd
  | pwd
  | retr
  | stor
  | mkd
  | rmd
  | dele
  | rnfr
  | rnto
  | notImplemented
deriving DecidableEq, Repr

/-- The routing decision of `handle_command`: sscanf first (failure → 500
syntax), then the session lookup (`get_session_index == -1` → 500 internal),
then USER/PASS/QUIT, then the `authenticated` gate, then the verb table. -/
def route (hasSession : Bool) (authenticated : Bool) (cs : List Char) : Route :=
  match sscanf_cmd_arg cs with
  | none => .syntaxError
  | some (cmd, _) =>
    if !hasSession then .internalError
    else if cmd = "USER".data then .user
    else if cmd = "PASS".data then .pass
    else if cmd = "QUIT".data then .quit
    else if !authenticated then .notLoggedIn
    else if cmd = "PORT".data then .port
    else if cmd = "LIST".data then .list
    else if cmd = "CWD".data then .cwd
    else if cmd = "PWD".data then .pwd
    else if cmd = "RETR".data then .retr
    else if cmd = "STOR".data then .stor
    else if cmd = "MKD".data then .mkd
    else if cmd = "RMD".data then .rmd
    else if cmd = "DELE".data then .dele
    else if cmd = "RNFR".data then .rnfr
    else if cmd = "RNTO".data then .rnto
    else .notImplemented

/-- The replies `handle_command` emits itself, without entering a handler. -/
def nohandler_reply : Route → Option String
  | .syntaxError => some "500 Syntax error, command unrecognized."
  | .internalError => some "500 Internal server error."
  | .notLoggedIn => some "530 Not logged in."
  | .notImplemented => some "202 Command not implemented."
  | _ => none

/-- Which routes close the control socket inside the handler: only QUIT
(server.c line 399 calls `close(client_fd)`). -/
def routeCloses : Route → Bool
  | .quit => true
  | _ => false

/-! ## Accepting connections (main loop, server.c lines 140-174) -/

/-- The slot scan of the accept path: the first session slot whose
`control_fd` is -1. -/
def find_free_slot : List Int → Option Nat
  | [] => none
  | fd :: rest => if fd == -1 then some 0 else (find_free_slot rest).map (· + 1)

/-- The accept path of the main loop, restricted to the `control_fd` column
of the session table: claim a free slot if one exists; in either case the fd
is added to the select set and the 220 greeting is written (line 173 runs
unconditionally, after the slot loop).  Nothing is ever closed here. -/
def accept_connection (slots : List Int) (newFd : Int) : List Int × String :=
  match find_free_slot slots with
  | some i => (slots.set i newFd, "220 Service ready for new user.")
  | none => (slots, "220 Service ready for new user.")

/-! ## Paths and the CWD handler -/

/-- C `strstr`: the suffix of the haystack starting at the first occurrence
of the needle, or `none`. -/
def strstr (needle : List Char) : List Char → Option (List Char)
  | [] => if needle = [] then some [] else none
  | c :: t => if needle.isPrefixOf (c :: t) then some (c :: t) else strstr needle t

/-- Split a path at `/` characters. -/
def splitSlashAux : List Char → List Char → List String
  | [], cur => [String.mk cur.reverse]
  | '/' :: t, cur => String.mk cur.reverse :: splitSlashAux t []
  | c :: t, cur => splitSlashAux t (c :: cur)

def splitSlash (p : String) : List String := splitSlashAux p.data []

/-- Lexical collapse of one path segment: drop empty and `.` segments, let
`..` remove the previous segment. -/
def collapseStep (acc : List String) (seg : String) : List String :=
  if seg = "" || seg = "." then acc
  else if seg = ".." then acc.dropLast
  else acc ++ [seg]

def joinSlash : List String → String
  | [] => ""
  | [x] => x
  | x :: xs => x ++ "/" ++ joinSlash xs

/-- Canonical form of an absolute path with `.` and `..` collapsed, used to
state where a constructed path really points. -/
def normalizePath (p : String) : String :=
  "/" ++ joinSlash ((splitSlash p).foldl collapseStep [])

def strPrefixOf (p s : String) : Bool := p.data.isPrefixOf s.data

/-- The jail predicate of the specification: a path is inside the jail when
it equals `root` or extends `root ++ "/"`. -/
def withinRoot (root p : String) : Bool :=
  p == root || strPrefixOf (root ++ "/") p

/-- `handle_cwd_command` of code/server.c (lines 527-570): build the target
path (absolute arguments taken verbatim, relative ones appended to
`current_dir`), test it with `opendir` — modelled by the `dirExists`
oracle — and on success overwrite `current_dir` with the raw, uncollapsed
path and reply 200 (the reply text shows the suffix of the path from the
first occurrence of the username, via `strstr`).  There is no comparison of
the target against `root_dir`. -/
def handle_cwd_command (dirExists : String → Bool) (s : FTPSession) (dir : String) :
    FTPSession × String :=
  let new_dir := if dir.data.head? = some '/' then dir
                 else s.current_dir ++ "/" ++ dir
  if dirExists new_dir then
    let rel := match strstr s.username.data new_dir.data with
               | some suf => String.mk suf
               | none => new_dir
    ({ s with current_dir := new_dir }, "200 directory changed to " ++ rel ++ "/.")
  else
    (s, "550 No such file or directory.")

/-- The path `handle_retr_command` passes to `fopen` (server.c line 629):
`sprintf(filepath, "%s/%s", current_dir, filename)`. -/
def retr_filepath (s : FTPSession) (filename : String) : String :=
  s.current_dir ++ "/" ++ filename

/-! ## Data-connection lifecycle (LIST / RETR / STOR handlers)

Each handler builds a fresh data socket, optionally binds it, connects to
the endpoint declared by PORT, forks a worker, and (in the parent) resets
the endpoint, waits for the child and replies 226.  Socket-level actions are
reified as a trace of `SockOp`s; the success of each OS call is an oracle in
`NetOracle`. -/

inductive SockOp where
  | create
  | sockopt
  | bindPort (p : Nat)
  | connectTo (ip : String) (port : Int)
deriving DecidableEq, Repr

/-- Outcomes of the OS calls a transfer handler makes, plus the worker's
exit status as later observed by `waitpid`. -/
structure NetOracle where
  socketOk : Bool
  sockoptOk : Bool
  bindOk : Bool
  connectOk : Bool
  forkOk : Bool
  childStatus : Nat
deriving DecidableEq, Repr

/-- Everything a transfer handler produces: the updated session, the control
replies in order, and the socket operations attempted. -/
structure HandlerOut where
  sess : FTPSession
  replies : List String
  ops : List SockOp
deriving DecidableEq, Repr

def reply425 : String := "425 Can\x27t open data connection."

def reply425bind : String := "425 Can\x27t open data connection (bind 20)."

def reply150 : String := "150 File status okay; about to open data connection."

def reply451 : String := "451 Requested action aborted: local error in processing."

/-- The parent branch after a successful fork (server.c lines 692-706,
802-815 and the LIST counterpart): close the data fd, reset `data_port` and
`data_ip`, call `waitpid(pid, NULL, 0)` — the status pointer is NULL, so
`childStatus` is discarded — and send 226. -/
def transfer_parent (s : FTPSession) (_childStatus : Nat) : FTPSession × String :=
  ({ s with data_port := -1, data_ip := "" }, "226 Transfer complete.")

/-- `handle_retr_command` of code/server.c (lines 597-706): endpoint check,
socket, setsockopt, existence probe of `current_dir/filename`, 150, connect,
fork, then the parent epilogue.  No bind is ever performed on the data
socket; every early return leaves the session untouched. -/
def handle_retr_command (nw : NetOracle) (fileExists : String → Bool)
    (s : FTPSession) (filename : String) : HandlerOut :=
  if s.data_port == -1 then
    ⟨s, [reply425], []⟩
  else if !nw.socketOk then
    ⟨s, [reply425], [.create]⟩
  else if !nw.sockoptOk then
    ⟨s, [reply425], [.create, .sockopt]⟩
  else if !(fileExists (retr_filepath s filename)) then
    ⟨s, ["550 No such file or directory."], [.create, .sockopt]⟩
  else if !nw.connectOk then
    ⟨s, [reply150, reply425], [.create, .sockopt, .connectTo s.data_ip s.data_port]⟩
  else if !nw.forkOk then
    ⟨s, [reply150, reply451], [.create, .sockopt, .connectTo s.data_ip s.data_port]⟩
  else
    let (s2, r) := transfer_parent s nw.childStatus
    ⟨s2, [reply150, r], [.create, .sockopt, .connectTo s.data_ip s.data_port]⟩

/-- `handle_list_command` of code/server.c (lines 426-525): as RETR but with
no file probe; 150 is sent before the connect. -/
def handle_list_command (nw : NetOracle) (s : FTPSession) : HandlerOut :=
  if s.data_port == -1 then
    ⟨s, [reply425], []⟩
  else if !nw.socketOk then
    ⟨s, [reply425], [.create]⟩
  else if !nw.sockoptOk then
    ⟨s, [reply425], [.create, .sockopt]⟩
  else if !nw.connectOk then
    ⟨s, [reply150, reply425], [.create, .sockopt, .connectTo s.data_ip s.data_port]⟩
  else if !nw.forkOk then
    ⟨s, [reply150, reply451], [.create, .sockopt, .connectTo s.data_ip s.data_port]⟩
  else
    let (s2, r) := transfer_parent s nw.childStatus
    ⟨s2, [reply150, r], [.create, .sockopt, .connectTo s.data_ip s.data_port]⟩

/-- The temporary upload path of STOR:
`sprintf(temp_filepath, "%s/tmp_%ld_%s", current_dir, time(NULL), filename)`. -/
def stor_temp_path (s : FTPSession) (now : Nat) (filename : String) : String :=
  s.current_dir ++ "/tmp_" ++ toString now ++ "_" ++ filename

/-- The destination path of STOR: `current_dir/filename`. -/
def stor_final_path (s : FTPSession) (filename : String) : String :=
  s.current_dir ++ "/" ++ filename

/-- `handle_stor_command` of code/server.c (lines 708-816): endpoint check,
socket, setsockopt, temp/final path construction, 150, connect, fork,
parent epilogue.  No bind; no jail check on the destination path. -/
def handle_stor_command (nw : NetOracle) (_now : Nat)
    (s : FTPSession) (_filename : String) : HandlerOut :=
  if s.data_port == -1 then
    ⟨s, [reply425], []⟩
  else if !nw.socketOk then
    ⟨s, [reply425], [.create]⟩
  else if !nw.sockoptOk then
    ⟨s, [reply425], [.create, .sockopt]⟩
  else if !nw.connectOk then
    ⟨s, [reply150, reply425], [.create, .sockopt, .connectTo s.data_ip s.data_port]⟩
  else if !nw.forkOk then
    ⟨s, [reply150, reply451], [.create, .sockopt, .connectTo s.data_ip s.data_port]⟩
  else
    let (s2, r) := transfer_parent s nw.childStatus
    ⟨s2, [reply150, r], [.create, .sockopt, .connectTo s.data_ip s.data_port]⟩

/-- `handle_retr_command` of the documented server variant (part_000 lines
944-1072): identical to the basic one except that the data socket is bound
to source port 20 right after setsockopt, before anything else. -/
def handle_retr_command_p0 (nw : NetOracle) (fileExists : String → Bool)
    (s : FTPSession) (filename : String) : HandlerOut :=
  if s.data_port == -1 then
    ⟨s, [reply425], []⟩
  else if !nw.socketOk then
    ⟨s, [reply425], [.create]⟩
  else if !nw.sockoptOk then
    ⟨s, [reply425], [.create, .sockopt]⟩
  else if !nw.bindOk then
    ⟨s, [reply425bind], [.create, .sockopt, .bindPort 20]⟩
  else if !(fileExists (retr_filepath s filename)) then
    ⟨s, ["550 No such file or directory."], [.create, .sockopt, .bindPort 20]⟩
  else if !nw.connectOk then
    ⟨s, [reply150, reply425],
     [.create, .sockopt, .bindPort 20, .connectTo s.data_ip s.data_port]⟩
  else if !nw.forkOk then
    ⟨s, [reply150, reply451],
     [.create, .sockopt, .bindPort 20, .connectTo s.data_ip s.data_port]⟩
  else
    let (s2, r) := transfer_parent s nw.childStatus
    ⟨s2, [reply150, r],
     [.create, .sockopt, .bindPort 20, .connectTo s.data_ip s.data_port]⟩

/-- `handle_list_command` of the documented variant (part_000 lines
682-802): bind to 20 after setsockopt, then 150, connect, fork. -/
def handle_list_command_p0 (nw : NetOracle) (s : FTPSession) : HandlerOut :=
  if s.data_port == -1 then
    ⟨s, [reply425], []⟩
  else if !nw.socketOk then
    ⟨s, [reply425], [.create]⟩
  else if !nw.sockoptOk then
    ⟨s, [reply425], [.create, .sockopt]⟩
  else if !nw.bindOk then
    ⟨s, [reply425bind], [.create, .sockopt, .bindPort 20]⟩
  else if !nw.connectOk then
    ⟨s, [reply150, reply425],
     [.create, .sockopt, .bindPort 20, .connectTo s.data_ip s.data_port]⟩
  else if !nw.forkOk then
    ⟨s, [reply150, reply451],
     [.create, .sockopt, .bindPort 20, .connectTo s.data_ip s.data_port]⟩
  else
    let (s2, r) := transfer_parent s nw.childStatus
    ⟨s2, [reply150, r],
     [.create, .sockopt, .bindPort 20, .connectTo s.data_ip s.data_port]⟩

/-- `handle_stor_command` of the documented variant (part_000 lines
1092-1207): bind to 20 after setsockopt, then paths, 150, connect, fork. -/
def handle_stor_command_p0 (nw : NetOracle) (_now : Nat)
    (s : FTPSession) (_filename : String) : HandlerOut :=
  if s.data_port == -1 then
    ⟨s, [reply425], []⟩
  else if !nw.socketOk then
    ⟨s, [reply425], [.create]⟩
  else if !nw.sockoptOk then
    ⟨s, [reply425], [.create, .sockopt]⟩
  else if !nw.bindOk then
    ⟨s, [reply425bind], [.create, .sockopt, .bindPort 20]⟩
  else if !nw.connectOk then
    ⟨s, [reply150, reply425],
     [.create, .sockopt, .bindPort 20, .connectTo s.data_ip s.data_port]⟩
  else if !nw.forkOk then
    ⟨s, [reply150, reply451],
     [.create, .sockopt, .bindPort 20, .connectTo s.data_ip s.data_port]⟩
  else
    let (s2, r) := transfer_parent s nw.childStatus
    ⟨s2, [reply150, r],
     [.create, .sockopt, .bindPort 20, .connectTo s.data_ip s.data_port]⟩

def isBind : SockOp → Bool
  | .bindPort _ => true
  | _ => false

def isConnect : SockOp → Bool
  | .connectTo _ _ => true
  | _ => false

def hasBind (ops : List SockOp) : Bool := ops.any isBind

def hasConnect (ops : List SockOp) : Bool := ops.any isConnect

/-- `connectsOnlyAfterBind20 seen ops` holds when every connect in `ops`
is preceded (earlier in the trace, or via `seen`) by a bind to port 20. -/
def connectsOnlyAfterBind20 : Bool → List SockOp → Bool
  | _, [] => true
  | _, .bindPort 20 :: rest => connectsOnlyAfterBind20 true rest
  | seen, .connectTo _ _ :: rest => seen && connectsOnlyAfterBind20 seen rest
  | seen, _ :: rest => connectsOnlyAfterBind20 seen rest

/-! ## The STOR worker (child process, server.c lines 776-801)

The child opens the temporary file, copies the data stream into it until
`read` returns 0 (EOF) or -1 (error) — the loop condition `> 0` does not
distinguish the two — then closes and renames the temporary file onto the
destination.  The stream is modelled as a list whose entries are `some b`
(a successful read of the bytes `b`) or `none` (read returns -1); list end
is EOF.  Filesystem effects are reified as `FsOp`s. -/

inductive FsOp where
  | openW (path : String)
  | writeChunk (path : String) (bytes : List Nat)
  | closeF (path : String)
  | renameF (src dst : String)
  | unlink (path : String)
deriving DecidableEq, Repr

def isUnlink : FsOp → Bool
  | .unlink _ => true
  | _ => false

/-- The receive loop: one `writeChunk` per successful read; a `none` read
(-1) ends the loop exactly as EOF does. -/
def stor_writes (temp : String) : List (Option (List Nat)) → List FsOp
  | [] => []
  | some b :: rest => .writeChunk temp b :: stor_writes temp rest
  | none :: _ => []

/-- The STOR worker: on a failed `fopen` of the temporary file it exits with
status 1 having touched nothing; otherwise it truncates the temporary file,
runs the receive loop, closes, renames the temporary file onto the
destination, and exits 0.  No path deletes the temporary file. -/
def stor_worker (temp final : String) (tempOpenOk : Bool)
    (events : List (Option (List Nat))) : List FsOp × Nat :=
  if tempOpenOk then
    ([.openW temp] ++ stor_writes temp events ++ [.closeF temp, .renameF temp final], 0)
  else
    ([], 1)

/-! A small filesystem interpreter for `FsOp` traces, to observe which file
contents result. -/

abbrev FileSys := List (String × List Nat)

def setFile (fs : FileSys) (p : String) (c : List Nat) : FileSys :=
  (p, c) :: fs.filter (fun e => !(e.1 == p))

def getFile (fs : FileSys) (p : String) : Option (List Nat) :=
  (fs.find? (fun e => e.1 == p)).map (·.2)

def delFile (fs : FileSys) (p : String) : FileSys :=
  fs.filter (fun e => !(e.1 == p))

def applyOp (fs : FileSys) : FsOp → FileSys
  | .openW p => setFile fs p []
  | .writeChunk p b =>
    match getFile fs p with
    | some c => setFile fs p (c ++ b)
    | none => fs
  | .closeF _ => fs
  | .renameF src dst =>
    match getFile fs src with
    | some c => setFile (delFile fs src) dst c
    | none => fs
  | .unlink p => delFile fs p

def runOps (ops : List FsOp) : FileSys := ops.foldl applyOp []

/-! ## Concrete sessions and oracles used by the tests below -/

/-- An authenticated session of user alice whose jail is /srv/ftp/alice,
with a pending data endpoint 127.0.0.1:5000 declared by PORT. -/
def sessData : FTPSession :=
  { control_fd := 5, username := "alice", authenticated := true,
    current_dir := "/srv/ftp/alice", root_dir := "/srv/ftp",
    data_ip := "127.0.0.1", data_port := 5000 }

/-- The same session before any PORT command. -/
def sessIdle : FTPSession :=
  { control_fd := 5, username := "alice", authenticated := true,
    current_dir := "/srv/ftp/alice", root_dir := "/srv/ftp",
    data_ip := "", data_port := -1 }

/-- A session that has named user alice but not yet authenticated. -/
def sessUserNamed : FTPSession :=
  { control_fd := 4, username := "alice", authenticated := false,
    current_dir := "/srv/ftp", root_dir := "/srv/ftp",
    data_ip := "", data_port := -1 }

def usersAlice : UserStore := [("alice", "wonderland")]

def usersTwo : UserStore := [("alice", "wonderland"), ("bob", "donuts")]

def nwAllOk : NetOracle :=
  { socketOk := true, sockoptOk := true, bindOk := true,
    connectOk := true, forkOk := true, childStatus := 0 }

def nwConnectFail : NetOracle :=
  { socketOk := true, sockoptOk := true, bindOk := true,
    connectOk := false, forkOk := true, childStatus := 0 }

/-! ## Helper lemmas on token scanning -/

theorem takeWhile_append_stop (p : Char → Bool) (l : List Char) (c : Char) (t : List Char)
    (hl : ∀ x ∈ l, p x = true) (hc : p c = false) :
    (l ++ c :: t).takeWhile p = l := by
  induction l with
  | nil => simp [List.takeWhile_cons, hc]
  | cons a as ih =>
    have ha : p a = true := hl a (List.mem_cons_self a as)
    simp only [List.cons_append, List.takeWhile_cons, ha, if_true]
    exact congrArg (a :: ·) (ih (fun x hx => hl x (List.mem_cons_of_mem a hx)))

theorem dropWhile_append_stop (p : Char → Bool) (l : List Char) (c : Char) (t : List Char)
    (hl : ∀ x ∈ l, p x = true) (hc : p c = false) :
    (l ++ c :: t).dropWhile p = c :: t := by
  induction l with
  | nil => simp [List.dropWhile_cons, hc]
  | cons a as ih =>
    have ha : p a = true := hl a (List.mem_cons_self a as)
    simp only [List.cons_append, List.dropWhile_cons, ha, if_true]
    exact ih (fun x hx => hl x (List.mem_cons_of_mem a hx))

theorem dropWhile_head_false (p : Char → Bool) (a : Char) (l : List Char)
    (ha : p a = false) : (a :: l).dropWhile p = a :: l := by
  simp [List.dropWhile_cons, ha]

/-- A nonempty all-non-space token followed by a space scans to exactly that
token, leaving the space and everything after it unconsumed. -/
theorem scanToken_token_space (w t : List Char)
    (hne : w ≠ []) (hw : ∀ c ∈ w, isSpace c = false) :
    scanToken (w ++ ' ' :: t) = some (w, ' ' :: t) := by
  have hl : ∀ x ∈ w, (!(isSpace x)) = true := fun x hx => by simp [hw x hx]
  have hc : (!(isSpace ' ')) = false := rfl
  have h2 : (w ++ ' ' :: t).takeWhile (fun c => !(isSpace c)) = w :=
    takeWhile_append_stop _ w ' ' t hl hc
  have h3 : (w ++ ' ' :: t).dropWhile (fun c => !(isSpace c)) = ' ' :: t :=
    dropWhile_append_stop _ w ' ' t hl hc
  obtain ⟨a, as, rfl⟩ := List.exists_cons_of_ne_nil hne
  have ha : isSpace a = false := hw a (List.mem_cons_self a as)
  have h1 : ((a :: as) ++ ' ' :: t).dropWhile isSpace = (a :: as) ++ ' ' :: t := by
    rw [List.cons_append]
    exact dropWhile_head_false _ _ _ ha
  unfold scanToken
  simp only [h1, h2, h3]
  simp

/-- Leading whitespace is skipped by `%s`. -/
theorem scanToken_space_cons (l : List Char) : scanToken (' ' :: l) = scanToken l := by
  unfold scanToken
  simp [List.dropWhile_cons, show isSpace ' ' = true from rfl]

theorem sscanf_cmd_arg_fst (cs t1 : List Char) (r1 : List Char)
    (h : scanToken cs = some (t1, r1)) :
    ∃ a, sscanf_cmd_arg cs = some (t1, a) := by
  unfold sscanf_cmd_arg
  rw [h]
  cases hsc : scanToken r1 with
  | none => exact ⟨none, by simp [hsc]⟩
  | some p =>
    obtain ⟨t2, r2⟩ := p
    exact ⟨some t2, by simp [hsc]⟩

/-- Any line of the shape `"USER " ++ u`, for an arbitrary tail `u`, routes
to the USER handler: the verb is cut at the first space before `u` is ever
inspected, and USER is dispatched before the `authenticated` gate. -/
theorem route_user_any_arg (auth : Bool) (u : List Char) :
    route true auth ("USER ".data ++ u) = Route.user := by
  have hs : scanToken ("USER ".data ++ u) = some ("USER".data, ' ' :: u) :=
    scanToken_token_space "USER".data u (by decide) (by decide)
  obtain ⟨a, ha⟩ := sscanf_cmd_arg_fst _ _ _ hs
  unfold route
  rw [ha]
  rfl

/-! ## C9 -/

/-- C9: processing USER `u` for a `u` present in the credential store writes
only the session's `username` field — `authenticated`, `root_dir`,
`current_dir`, `data_ip` and `data_port` are untouched — and replies 331;
moreover `handle_command` routes USER before its `authenticated` gate, so an
already-authenticated session issuing USER with another stored username
keeps `authenticated = true` while the username changes. -/
theorem user_command_frame (users : UserStore) (s : FTPSession) (u : String)
    (h : user_exists users u = true) :
    handle_user_command users s u =
      ({ s with username := u }, "331 Username OK, need password.") ∧
    (handle_user_command users s u).1.authenticated = s.authenticated ∧
    (handle_user_command users s u).1.root_dir = s.root_dir ∧
    (handle_user_command users s u).1.current_dir = s.current_dir ∧
    (handle_user_command users s u).1.data_ip = s.data_ip ∧
    (handle_user_command users s u).1.data_port = s.data_port ∧
    route true true ("USER ".data ++ u.data) = Route.user := by
  unfold handle_user_command
  rw [if_pos h]
  exact ⟨rfl, rfl, rfl, rfl, rfl, rfl, route_user_any_arg true u.data⟩

/-- Witness for C9: the authenticated session `sessData` (alice) issues
`USER bob` with bob present in the store. -/
theorem user_command_frame_witness :
    handle_user_command usersTwo sessData "bob" =
      ({ sessData with username := "bob" }, "331 Username OK, need password.") ∧
    (handle_user_command usersTwo sessData "bob").1.authenticated = sessData.authenticated ∧
    (handle_user_command usersTwo sessData "bob").1.root_dir = sessData.root_dir ∧
    (handle_user_command usersTwo sessData "bob").1.current_dir = sessData.current_dir ∧
    (handle_user_command usersTwo sessData "bob").1.data_ip = sessData.data_ip ∧
    (handle_user_command usersTwo sessData "bob").1.data_port = sessData.data_port ∧
    route true true ("USER ".data ++ "bob".data) = Route.user :=
  user_command_frame usersTwo sessData "bob" (by decide)

/-! ## C5 -/

/-- C5 (amended): PASS with a non-verifying password in a session that has a
stored username replies 530 and leaves the session exactly as it was — the
username is retained and `authenticated` stays false, so the session remains
user-named rather than returning to the unauthenticated-no-user state. -/
theorem pass_mismatch_preserves_session (users : UserStore) (s : FTPSession) (p : String)
    (hu : s.username ≠ "") (ha : authenticate_user users s.username p = false) :
    handle_pass_command users s p = (s, "530 Not logged in.") := by
  unfold handle_pass_command
  rw [if_pos hu, if_neg (by simp [ha])]

/-- Witness for C5's amended statement: alice with the wrong password. -/
theorem pass_mismatch_preserves_session_witness :
    handle_pass_command usersAlice sessUserNamed "bad" = (sessUserNamed, "530 Not logged in.") :=
  pass_mismatch_preserves_session usersAlice sessUserNamed "bad" (by decide) (by decide)

/-- C5 counterexample: after `USER alice` and a failed `PASS bad` (reply
530), the stored username survives, so a bare `PASS wonderland` — with no
new USER command — authenticates the session, contradicting the claimed
return to the unauthenticated state. -/
theorem pass_retry_succeeds_without_user :
    (handle_pass_command usersAlice sessUserNamed "bad").2 = "530 Not logged in." ∧
    (handle_pass_command usersAlice sessUserNamed "bad").1.username = "alice" ∧
    (handle_pass_command usersAlice sessUserNamed "bad").1.authenticated = false ∧
    (handle_pass_command usersAlice
        (handle_pass_command usersAlice sessUserNamed "bad").1 "wonderland").2 =
      "230 User logged in, proceed." ∧
    (handle_pass_command usersAlice
        (handle_pass_command usersAlice sessUserNamed "bad").1 "wonderland").1.authenticated =
      true := by
  decide

/-! ## C6 -/

/-- C6 (amended): PORT applies no 0-255 range check.  Whenever the sscanf
parse of six comma-separated integers succeeds — whatever their values —
the endpoint is set to `h1.h2.h3.h4` with port `p1*256+p2` and the reply is
200; only when fewer than six integers parse does the handler reply 501
with the session unchanged. -/
theorem port_parse_behavior (s : FTPSession) (args : String) :
    (parsePortArgs args = none →
      handle_port_command s args = (s, "501 Syntax error in parameters.")) ∧
    (∀ a : PortArgs, parsePortArgs args = some a →
      handle_port_command s args =
        ({ s with data_ip := ipStr a.h1 a.h2 a.h3 a.h4,
                  data_port := a.p1 * 256 + a.p2 },
         "200 PORT command successful.")) := by
  constructor
  · intro h
    unfold handle_port_command
    rw [h]
  · intro a h
    unfold handle_port_command
    rw [h]

/-- Witness for C6's amended statement, at an argument whose first octet is
300 > 255: the parse succeeds and the endpoint is set with reply 200. -/
theorem port_parse_behavior_witness :
    handle_port_command sessIdle "300,0,0,1,19,136" =
      ({ sessIdle with data_ip := ipStr 300 0 0 1, data_port := 19 * 256 + 136 },
       "200 PORT command successful.") :=
  (port_parse_behavior sessIdle "300,0,0,1,19,136").2 ⟨300, 0, 0, 1, 19, 136⟩ (by decide)

/-- C6 counterexample: `PORT 300,0,0,1,19,136` has an octet greater than
255, yet the handler accepts it — reply 200, endpoint set to 300.0.0.1:5000
— instead of the claimed 501 with the endpoint unchanged. -/
theorem port_octet_over_255_accepted :
    parsePortArgs "300,0,0,1,19,136" = some ⟨300, 0, 0, 1, 19, 136⟩ ∧
    (300 : Int) > 255 ∧
    (handle_port_command sessIdle "300,0,0,1,19,136").2 = "200 PORT command successful." ∧
    (handle_port_command sessIdle "300,0,0,1,19,136").2 ≠ "501 Syntax error in parameters." ∧
    (handle_port_command sessIdle "300,0,0,1,19,136").1.data_port = 5000 ∧
    (handle_port_command sessIdle "300,0,0,1,19,136").1.data_ip = "300.0.0.1" := by
  decide

/-! ## C7 -/

/-- C7 (amended): the first whitespace-delimited token of a control line is
the verb, but the argument handed to the handler is only the second
whitespace-delimited token — everything after it is discarded, so an
argument containing spaces cannot be transmitted.  The second conjunct
evaluates the specification's own parse (verb plus left-trimmed remainder)
on the same line for comparison. -/
theorem verb_and_second_token_only (w1 w2 rest : List Char)
    (h1ne : w1 ≠ []) (h1 : ∀ c ∈ w1, isSpace c = false)
    (h2ne : w2 ≠ []) (h2 : ∀ c ∈ w2, isSpace c = false) :
    sscanf_cmd_arg (w1 ++ ' ' :: (w2 ++ ' ' :: rest)) = some (w1, some w2) ∧
    spec_parse_line (w1 ++ ' ' :: (w2 ++ ' ' :: rest)) = some (w1, w2 ++ ' ' :: rest) := by
  have hs1 : scanToken (w1 ++ ' ' :: (w2 ++ ' ' :: rest)) =
      some (w1, ' ' :: (w2 ++ ' ' :: rest)) :=
    scanToken_token_space w1 (w2 ++ ' ' :: rest) h1ne h1
  have hs2 : scanToken (' ' :: (w2 ++ ' ' :: rest)) = some (w2, ' ' :: rest) := by
    rw [scanToken_space_cons]
    exact scanToken_token_space w2 rest h2ne h2
  have hdrop : (' ' :: (w2 ++ ' ' :: rest)).dropWhile isSpace = w2 ++ ' ' :: rest := by
    obtain ⟨b, bs, rfl⟩ := List.exists_cons_of_ne_nil h2ne
    have hb : isSpace b = false := h2 b (List.mem_cons_self b bs)
    rw [List.dropWhile_cons, if_pos (show isSpace ' ' = true from rfl), List.cons_append]
    exact dropWhile_head_false _ _ _ hb
  constructor
  · unfold sscanf_cmd_arg
    rw [hs1]
    simp [hs2]
  · unfold spec_parse_line
    rw [hs1]
    simp [hdrop]

/-- Witness for C7's amended statement: the line `STOR my file.txt`. -/
theorem verb_and_second_token_only_witness :
    sscanf_cmd_arg ("STOR".data ++ ' ' :: ("my".data ++ ' ' :: "file.txt".data)) =
      some ("STOR".data, some "my".data) ∧
    spec_parse_line ("STOR".data ++ ' ' :: ("my".data ++ ' ' :: "file.txt".data)) =
      some ("STOR".data, "my".data ++ ' ' :: "file.txt".data) :=
  verb_and_second_token_only "STOR".data "my".data "file.txt".data
    (by decide) (by decide) (by decide) (by decide)

/-- C7 counterexample: for the control line `STOR my file.txt`, the code's
parse yields the argument `my` while the claimed parse (left-trimmed
remainder, spaces retained) yields `my file.txt`; the two disagree. -/
theorem arg_with_spaces_truncated :
    sscanf_cmd_arg ("STOR my file.txt").data = some ("STOR".data, some "my".data) ∧
    spec_parse_line ("STOR my file.txt").data = some ("STOR".data, "my file.txt".data) ∧
    some ("my".data) ≠ some ("my file.txt").data := by
  refine ⟨by decide, by decide, by decide⟩

/-! ## C10 -/

theorem find_free_slot_none (slots : List Int)
    (hfull : slots.all (fun fd => !(fd == -1)) = true) :
    find_free_slot slots = none := by
  induction slots with
  | nil => rfl
  | cons fd rest ih =>
    rw [List.all_cons, Bool.and_eq_true] at hfull
    unfold find_free_slot
    rw [if_neg (by simpa using hfull.1)]
    rw [ih hfull.2]
    rfl

/-- C10: when every session slot is occupied, the accept path still sends
the 220 greeting on the new connection and allocates nothing; any command
line received on that connection afterwards (whatever the `authenticated`
flag would read) parses, fails the session lookup, and is answered with
exactly `500 Internal server error.` — a route that is not QUIT, hence one
on which the server closes nothing. -/
theorem full_table_overflow_behavior (slots : List Int) (newFd : Int)
    (cs : List Char) (auth : Bool)
    (hfull : slots.all (fun fd => !(fd == -1)) = true)
    (hcmd : (sscanf_cmd_arg cs).isSome = true) :
    accept_connection slots newFd = (slots, "220 Service ready for new user.") ∧
    route false auth cs = Route.internalError ∧
    nohandler_reply (route false auth cs) = some "500 Internal server error." ∧
    routeCloses (route false auth cs) = false := by
  have hacc : accept_connection slots newFd = (slots, "220 Service ready for new user.") := by
    unfold accept_connection
    rw [find_free_slot_none slots hfull]
  have hroute : route false auth cs = Route.internalError := by
    unfold route
    cases hsc : sscanf_cmd_arg cs with
    | none => rw [hsc] at hcmd; exact absurd hcmd (by simp)
    | some p =>
      obtain ⟨cmd, a⟩ := p
      simp [hsc]
  exact ⟨hacc, hroute, by rw [hroute]; rfl, by rw [hroute]; rfl⟩

/-- Witness for C10: ten occupied slots, a new connection fd 13, and the
command line `USER alice` arriving on it. -/
theorem full_table_overflow_behavior_witness :
    accept_connection [3, 4, 5, 6, 7, 8, 9, 10, 11, 12] 13 =
      ([3, 4, 5, 6, 7, 8, 9, 10, 11, 12], "220 Service ready for new user.") ∧
    route false false ("USER alice").data = Route.internalError ∧
    nohandler_reply (route false false ("USER alice").data) =
      some "500 Internal server error." ∧
    routeCloses (route false false ("USER alice").data) = false :=
  full_table_overflow_behavior [3, 4, 5, 6, 7, 8, 9, 10, 11, 12] 13
    ("USER alice").data false (by decide) (by decide)

/-! ## C1 -/

/-- C1: evaluation of the CWD handler at the escaping request `CWD ../..`
issued by alice (jail `/srv/ftp/alice` under root `/srv/ftp`).  The
`dirExists` oracle is constantly true, standing for the real filesystem in
which `/srv/ftp/alice/../..` (that is, `/srv`) exists.  The handler replies
200 — not the claimed 550 — and overwrites `current_dir` with a path whose
canonical form `/srv` is outside `root_dir`; likewise RETR hands `fopen`
the path `current_dir/../../etc/passwd`, canonically `/srv/etc/passwd`,
also outside the jail. -/
theorem cwd_traversal_escape :
    (handle_cwd_command (fun _ => true) sessIdle "../..").2 =
      "200 directory changed to alice/../../." ∧
    (handle_cwd_command (fun _ => true) sessIdle "../..").2 ≠
      "550 No such file or directory." ∧
    (handle_cwd_command (fun _ => true) sessIdle "../..").1.current_dir =
      "/srv/ftp/alice/../.." ∧
    (handle_cwd_command (fun _ => true) sessIdle "../..").1.current_dir ≠
      sessIdle.current_dir ∧
    normalizePath (handle_cwd_command (fun _ => true) sessIdle "../..").1.current_dir =
      "/srv" ∧
    withinRoot sessIdle.root_dir
      (normalizePath (handle_cwd_command (fun _ => true) sessIdle "../..").1.current_dir) =
      false ∧
    retr_filepath sessIdle "../../etc/passwd" = "/srv/ftp/alice/../../etc/passwd" ∧
    normalizePath (retr_filepath sessIdle "../../etc/passwd") = "/srv/etc/passwd" ∧
    withinRoot sessIdle.root_dir
      (normalizePath (retr_filepath sessIdle "../../etc/passwd")) = false := by
  decide

/-! ## C2 -/

/-- C2: evaluation of the STOR worker on a data stream that delivers the
bytes `[1, 2]` and then fails (`read` returns -1) mid-transfer.  The loop
cannot distinguish the error from EOF, so the worker still renames the
temporary file onto the destination and exits 0: afterwards the destination
`doc.bin` holds only the incomplete prefix `[1, 2]`, the temporary file is
gone by rename — never by the claimed delete (no `unlink` appears in the
trace) — and the clean exit status means the control handler will reply
226 rather than 451. -/
theorem stor_read_error_renames_incomplete_file :
    (stor_worker "/srv/ftp/alice/tmp_7_doc.bin" "/srv/ftp/alice/doc.bin" true
        [some [1, 2], none]).2 = 0 ∧
    ((stor_worker "/srv/ftp/alice/tmp_7_doc.bin" "/srv/ftp/alice/doc.bin" true
        [some [1, 2], none]).1.any isUnlink) = false ∧
    getFile (runOps (stor_worker "/srv/ftp/alice/tmp_7_doc.bin" "/srv/ftp/alice/doc.bin"
        true [some [1, 2], none]).1) "/srv/ftp/alice/doc.bin" = some [1, 2] ∧
    getFile (runOps (stor_worker "/srv/ftp/alice/tmp_7_doc.bin" "/srv/ftp/alice/doc.bin"
        true [some [1, 2], none]).1) "/srv/ftp/alice/tmp_7_doc.bin" = none := by
  decide

/-! ## C3 -/

/-- C3 (amended): the pending data endpoint is consumed only when the
transfer attempt reaches a successful fork.  For RETR, LIST and STOR alike,
the session after the handler equals the endpoint-cleared session exactly
when the endpoint was present and socket creation, setsockopt, the RETR
existence probe (for RETR), the data connect and the fork all succeeded; on
any earlier failure the handler returns with the endpoint still set. -/
theorem endpoint_cleared_only_on_fork_success (nw : NetOracle) (fe : String → Bool)
    (s : FTPSession) (fn : String) (now : Nat) :
    (handle_retr_command nw fe s fn).sess =
      (if (!(s.data_port == -1) && nw.socketOk && nw.sockoptOk &&
           fe (retr_filepath s fn) && nw.connectOk && nw.forkOk : Bool)
       then { s with data_port := -1, data_ip := "" } else s) ∧
    (handle_list_command nw s).sess =
      (if (!(s.data_port == -1) && nw.socketOk && nw.sockoptOk &&
           nw.connectOk && nw.forkOk : Bool)
       then { s with data_port := -1, data_ip := "" } else s) ∧
    (handle_stor_command nw now s fn).sess =
      (if (!(s.data_port == -1) && nw.socketOk && nw.sockoptOk &&
           nw.connectOk && nw.forkOk : Bool)
       then { s with data_port := -1, data_ip := "" } else s) := by
  obtain ⟨so, sk, bo, co, fo, st⟩ := nw
  refine ⟨?_, ?_, ?_⟩
  · cases hd : (s.data_port == -1) <;> cases so <;> cases sk <;>
      cases hfe : fe (retr_filepath s fn) <;> cases co <;> cases fo <;>
      simp [handle_retr_command, transfer_parent, hd, hfe]
  · cases hd : (s.data_port == -1) <;> cases so <;> cases sk <;>
      cases co <;> cases fo <;>
      simp [handle_list_command, transfer_parent, hd]
  · cases hd : (s.data_port == -1) <;> cases so <;> cases sk <;>
      cases co <;> cases fo <;>
      simp [handle_stor_command, transfer_parent, hd]

/-- C3 counterexample: `sessData` has the declared endpoint 127.0.0.1:5000;
a RETR whose data connect fails replies 150 then 425 and returns with the
endpoint still set (the session is unchanged), and the very next RETR uses
the same declared endpoint for its connect — the endpoint was neither
cleared after the failed attempt nor protected from reuse. -/
theorem endpoint_survives_connect_failure :
    sessData.data_port = 5000 ∧
    (handle_retr_command nwConnectFail (fun _ => true) sessData "f.txt").sess = sessData ∧
    (handle_retr_command nwConnectFail (fun _ => true) sessData "f.txt").sess.data_port =
      5000 ∧
    (handle_retr_command nwConnectFail (fun _ => true) sessData "f.txt").replies =
      [reply150, reply425] ∧
    (handle_retr_command nwAllOk (fun _ => true)
        (handle_retr_command nwConnectFail (fun _ => true) sessData "f.txt").sess
        "f.txt").ops =
      [SockOp.create, SockOp.sockopt, SockOp.connectTo "127.0.0.1" 5000] := by
  decide

/-! ## C4 -/

/-- C4 (amended): once a transfer worker has been forked, the parent
epilogue replies `226 Transfer complete.` whatever the worker's exit status
is — `waitpid` is called with a NULL status pointer, so the status cannot
influence the reply; 451 is emitted only when the fork itself fails, before
any worker exists. -/
theorem reply_ignores_worker_status (s : FTPSession) (st st' : Nat) :
    transfer_parent s st =
      ({ s with data_port := -1, data_ip := "" }, "226 Transfer complete.") ∧
    (transfer_parent s st).2 = (transfer_parent s st').2 :=
  ⟨rfl, rfl⟩

/-- C4 counterexample: a STOR worker that cannot open its temporary file
exits with status 1, yet the parent epilogue applied to that very status
replies `226 Transfer complete.` — which is neither a 451 nor a 550
reply — contradicting the claimed mapping of worker errors. -/
theorem worker_error_still_gets_226 :
    (stor_worker "/srv/ftp/alice/tmp_7_doc.bin" "/srv/ftp/alice/doc.bin" false []).2 = 1 ∧
    (transfer_parent sessData
        (stor_worker "/srv/ftp/alice/tmp_7_doc.bin" "/srv/ftp/alice/doc.bin"
          false []).2).2 = "226 Transfer complete." ∧
    ("226 Transfer complete.").data.take 3 ≠ "451".data ∧
    ("226 Transfer complete.").data.take 3 ≠ "550".data := by
  decide

/-! ## C8 -/

/-- C8 (amended): in the documented server variant the data socket is bound
to source port 20 before any connect, for LIST, RETR and STOR alike; in the
basic server of code/server.c no bind is ever performed on the data socket,
so its connects originate from an ephemeral port. -/
theorem data_socket_bind_behavior (nw : NetOracle) (fe : String → Bool)
    (s : FTPSession) (fn : String) (now : Nat) :
    connectsOnlyAfterBind20 false (handle_retr_command_p0 nw fe s fn).ops = true ∧
    connectsOnlyAfterBind20 false (handle_list_command_p0 nw s).ops = true ∧
    connectsOnlyAfterBind20 false (handle_stor_command_p0 nw now s fn).ops = true ∧
    hasBind (handle_retr_command nw fe s fn).ops = false ∧
    hasBind (handle_list_command nw s).ops = false ∧
    hasBind (handle_stor_command nw now s fn).ops = false := by
  obtain ⟨so, sk, bo, co, fo, st⟩ := nw
  refine ⟨?_, ?_, ?_, ?_, ?_, ?_⟩
  · cases hd : (s.data_port == -1) <;> cases so <;> cases sk <;> cases bo <;>
      cases hfe : fe (retr_filepath s fn) <;> cases co <;> cases fo <;>
      simp [handle_retr_command_p0, transfer_parent, connectsOnlyAfterBind20, hd, hfe]
  · cases hd : (s.data_port == -1) <;> cases so <;> cases sk <;> cases bo <;>
      cases co <;> cases fo <;>
      simp [handle_list_command_p0, transfer_parent, connectsOnlyAfterBind20, hd]
  · cases hd : (s.data_port == -1) <;> cases so <;> cases sk <;> cases bo <;>
      cases co <;> cases fo <;>
      simp [handle_stor_command_p0, transfer_parent, connectsOnlyAfterBind20, hd]
  · cases hd : (s.data_port == -1) <;> cases so <;> cases sk <;>
      cases hfe : fe (retr_filepath s fn) <;> cases co <;> cases fo <;>
      simp [handle_retr_command, transfer_parent, hasBind, isBind, hd, hfe]
  · cases hd : (s.data_port == -1) <;> cases so <;> cases sk <;>
      cases co <;> cases fo <;>
      simp [handle_list_command, transfer_parent, hasBind, isBind, hd]
  · cases hd : (s.data_port == -1) <;> cases so <;> cases sk <;>
      cases co <;> cases fo <;>
      simp [handle_stor_command, transfer_parent, hasBind, isBind, hd]

/-- C8 counterexample: a fully successful RETR data connection in
code/server.c produces the socket trace create, setsockopt, connect — it
does connect, but no bind to port 20 (or to anything) ever precedes it. -/
theorem retr_connects_without_bind :
    (handle_retr_command nwAllOk (fun _ => true) sessData "f.txt").ops =
      [SockOp.create, SockOp.sockopt, SockOp.connectTo "127.0.0.1" 5000] ∧
    hasConnect (handle_retr_command nwAllOk (fun _ => true) sessData "f.txt").ops = true ∧
    hasBind (handle_retr_command nwAllOk (fun _ => true) sessData "f.txt").ops = false ∧
    (handle_retr_command nwAllOk (fun _ => true) sessData "f.txt").replies =
      [reply150, "226 Transfer complete."] := by
  decide

end FTP
